import Mathlib

/-!
Shallow embedding of the library circulation system (Project_03).

Modelling conventions, chosen once and used throughout:

* Calendar dates are modelled as integers counting days from an arbitrary
  epoch: Python `date` comparison becomes integer comparison,
  `d + timedelta(days = n)` becomes `d + n`, and `(a - b).days` becomes
  `a - b`.  Concrete dates in examples pick `2025-01-01 ↦ 0`, so
  `2025-01-20 ↦ 19`.
* Python `float` fine amounts are modelled as exact rationals `ℚ`;
  `round(x, 2)` is modelled as round-half-to-even at two decimals
  (Python's rounding mode).  At the magnitudes the program handles
  (integer numbers of days times quarter-dollar rates) the float
  computation is exact, so the rational model agrees with the source.
* A Python method that mutates `self` becomes a function returning the
  updated value; a method that can raise returns `Except String α`.
  Where the source can raise an exception *after* having already mutated
  state (mutations survive the raise in Python), the embedding returns a
  result record carrying both the outcome and the final states, so the
  partially mutated state is observable exactly as in the source.
* String fields (`creators`, `tags`, `call_number`, `isbn`,
  normalisation and ISBN validation) take no part in any claim below and
  are omitted from the records; the constructor validations that guard
  the claims (blank identifiers, negative counts) are kept verbatim.
* Python dicts are association lists in insertion order: lookup is
  `List.lookup`, and `d[k] = v` is `dictInsert`, which overwrites an
  existing binding in place or appends a fresh one.
-/

abbrev Date := Int

/-- Python `str.strip()`: drop leading and trailing whitespace (modelled
over the character list so that it evaluates by kernel reduction). -/
def pyStrip (s : String) : String :=
  String.mk
    (((s.toList.dropWhile Char.isWhitespace).reverse.dropWhile
        Char.isWhitespace).reverse)

/-- Python dict assignment `d[k] = v`: overwrite in place, else append. -/
def dictInsert {α : Type} (k : String) (v : α)
    (d : List (String × α)) : List (String × α) :=
  if d.any (fun p => p.1 == k) then
    d.map (fun p => if p.1 == k then (k, v) else p)
  else
    d ++ [(k, v)]

namespace project_1_functions

/-- `validate_user_role` from project_1_functions.py: membership in the
closed role set. -/
def validate_user_role (role : String) : Bool :=
  role == "Student" || role == "Faculty" || role == "Staff" ||
  role == "Admin" || role == "Public"

/-- `calculate_due_date` from project_1_functions.py: 14 days for
Student/Public, 28 days otherwise. -/
def calculate_due_date (start : Date) (role : String) : Date :=
  start + (if role == "Student" || role == "Public" then 14 else 28)

/-- Round-half-to-even to an integer, Python `round`'s tie-breaking rule. -/
def roundHalfEven (q : ℚ) : ℤ :=
  let n := ⌊q⌋
  let r := q - (n : ℚ)
  if r < 1/2 then n
  else if r > 1/2 then n + 1
  else if n % 2 = 0 then n else n + 1

/-- Python `round(x, 2)` on the rational model. -/
def round2 (q : ℚ) : ℚ := (roundHalfEven (q * 100) : ℚ) / 100

/-- `compute_overdue_fine` from project_1_functions.py: zero when returned
on or before the due date, else days late times the daily rate, rounded
to two decimals. -/
def compute_overdue_fine (due_date return_date : Date) (daily_rate : ℚ) : ℚ :=
  if return_date ≤ due_date then 0
  else round2 ((return_date - due_date) * daily_rate)

end project_1_functions

/-- The closed set of item variants of libraryItem.py (generic
`LibraryItem` plus the `Book`, `Journal`, `DVD`, `EBook` subclasses). -/
inductive ItemKind where
  | generic
  | book
  | journal
  | dvd
  | ebook
deriving DecidableEq, Repr

/-- State of a `LibraryItem` (libraryItem.py).  `kind` records which
subclass the object is, selecting the overridden methods below. -/
structure LibraryItem where
  item_id : String
  title : String
  kind : ItemKind
  available_copies : Int
  total_copies : Int
deriving DecidableEq, Repr

namespace LibraryItem

/-- `LibraryItem.__init__`: validates the id, title and copy count, then
sets both `_available_copies` and `_total_copies` from the single
`available_copies` argument. -/
def init (item_id title : String) (kind : ItemKind)
    (available_copies : Int) : Except String LibraryItem :=
  if pyStrip item_id == "" then .error "Item ID cannot be empty"
  else if pyStrip title == "" then .error "Title cannot be empty"
  else if available_copies < 0 then .error "Available copies cannot be negative"
  else .ok { item_id := pyStrip item_id, title := pyStrip title, kind := kind,
             available_copies := available_copies,
             total_copies := available_copies }

/-- `LibraryItem.is_available`. -/
def is_available (it : LibraryItem) : Bool :=
  it.available_copies > 0

/-- `checkout_copy`: the `EBook` override is a no-op (licensed resource);
every other variant raises when no copy is available, else decrements. -/
def checkout_copy (it : LibraryItem) : Except String LibraryItem :=
  match it.kind with
  | .ebook => .ok it
  | _ =>
    if it.available_copies ≤ 0 then
      .error "Item has no available copies"
    else
      .ok { it with available_copies := it.available_copies - 1 }

/-- `return_copy` (no subclass overrides it): raises when every copy is
already in, else increments. -/
def return_copy (it : LibraryItem) : Except String LibraryItem :=
  if it.available_copies ≥ it.total_copies then
    .error "All copies are already returned"
  else
    .ok { it with available_copies := it.available_copies + 1 }

/-- `calculate_due_date`, dispatched per subclass: generic/`Book` use the
project-1 role policy, `Journal` 7/14 days, `DVD` flat 7 days, `EBook`
the checkout date itself. -/
def calculate_due_date (it : LibraryItem) (checkout_date : Date)
    (user_role : String) : Date :=
  match it.kind with
  | .generic => project_1_functions.calculate_due_date checkout_date user_role
  | .book => project_1_functions.calculate_due_date checkout_date user_role
  | .journal =>
      checkout_date +
        (if user_role == "Student" || user_role == "Public" then 7 else 14)
  | .dvd => checkout_date + 7
  | .ebook => checkout_date

end LibraryItem

/-- State of a `User` (User.py); fields not touched by any claim
(`total_fines` arithmetic aside) are kept for fidelity of the
coordinator's bookkeeping. -/
structure User where
  user_id : String
  name : String
  role : String
  active_loan_ids : List String
  total_fines : ℚ
deriving DecidableEq, Repr

namespace User

/-- `User.__init__`: blank-id and role validation (name normalisation is
omitted: no claim mentions it). -/
def init (user_id name role : String) : Except String User :=
  if pyStrip user_id == "" then .error "User ID cannot be empty"
  else if !(project_1_functions.validate_user_role role) then
    .error "Invalid role"
  else .ok { user_id := pyStrip user_id, name := name, role := role,
             active_loan_ids := [], total_fines := 0 }

/-- `User.add_loan`: appends the id unless already present. -/
def add_loan (u : User) (loan_id : String) : User :=
  if u.active_loan_ids.contains loan_id then u
  else { u with active_loan_ids := u.active_loan_ids ++ [loan_id] }

end User

/-- State of a `Hold` (Hold.py). -/
structure Hold where
  hold_id : String
  user_id : String
  item_id : String
  placed_on : Date
  expires_on : Date
  notified : Bool
  fulfilled : Bool
  cancelled : Bool
deriving DecidableEq, Repr

namespace Hold

/-- `Hold.__init__`: blank-id validation, expiry not before placement;
`_fulfilled` and `_cancelled` start false. -/
def init (hold_id user_id item_id : String) (placed_on expires_on : Date)
    (notified : Bool) : Except String Hold :=
  if pyStrip hold_id == "" then .error "Hold ID cannot be empty"
  else if pyStrip user_id == "" then .error "User ID cannot be empty"
  else if pyStrip item_id == "" then .error "Item ID cannot be empty"
  else if expires_on < placed_on then
    .error "Expiry date cannot be before placement date"
  else .ok { hold_id := pyStrip hold_id, user_id := pyStrip user_id,
             item_id := pyStrip item_id, placed_on := placed_on,
             expires_on := expires_on, notified := notified,
             fulfilled := false, cancelled := false }

/-- `Hold.is_active`: not fulfilled, not cancelled, and today at or
before expiry. -/
def is_active (h : Hold) (today : Date) : Bool :=
  !h.fulfilled && !h.cancelled && decide (today ≤ h.expires_on)

/-- `Hold.is_expired`: not fulfilled and today past expiry (the
`cancelled` flag is not consulted). -/
def is_expired (h : Hold) (today : Date) : Bool :=
  !h.fulfilled && decide (today > h.expires_on)

/-- `Hold.fulfill`: raises if cancelled, else sets the fulfilled flag. -/
def fulfill (h : Hold) : Except String Hold :=
  if h.cancelled then .error "Hold is cancelled"
  else .ok { h with fulfilled := true }

/-- `Hold.cancel`: raises if fulfilled, else sets the cancelled flag. -/
def cancel (h : Hold) : Except String Hold :=
  if h.fulfilled then .error "Cannot cancel fulfilled hold"
  else .ok { h with cancelled := true }

end Hold

/-- State of a `Loan` (loan.py): `returned_on = none` means active. -/
structure Loan where
  loan_id : String
  user_id : String
  item_id : String
  due : Date
  returned_on : Option Date
  renewals : Int
deriving DecidableEq, Repr

namespace Loan

/-- `Loan.__init__`: blank-id validation and non-negative renewals. -/
def init (loan_id user_id item_id : String) (due : Date)
    (returned_on : Option Date) (renewals : Int) : Except String Loan :=
  if pyStrip loan_id == "" then .error "Loan ID cannot be empty"
  else if pyStrip user_id == "" then .error "User ID cannot be empty"
  else if pyStrip item_id == "" then .error "Item ID cannot be empty"
  else if renewals < 0 then .error "Renewals cannot be negative"
  else .ok { loan_id := pyStrip loan_id, user_id := pyStrip user_id,
             item_id := pyStrip item_id, due := due,
             returned_on := returned_on, renewals := renewals }

/-- `Loan.is_active`: the return date is unset. -/
def is_active (l : Loan) : Bool :=
  l.returned_on.isNone

/-- `Loan.is_overdue`: active and today past the due date. -/
def is_overdue (l : Loan) (today : Date) : Bool :=
  l.is_active && decide (today > l.due)

/-- `Loan.calculate_fine`: delegates to the project-1 fine function with
the loan's own due date. -/
def calculate_fine (l : Loan) (return_date : Date) (daily_rate : ℚ) : ℚ :=
  project_1_functions.compute_overdue_fine l.due return_date daily_rate

/-- Outcome of `Loan.return_item` together with the final states of the
loan and the item.  Python mutations survive a raise, so the loan and
item carried here are whatever the method left behind, error or not. -/
structure ReturnItemResult where
  outcome : Except String ℚ
  loan : Loan
  item : LibraryItem
deriving Repr

/-- `Loan.return_item`, in source order: raise if already closed; set
`_returned_on`; call `item.return_copy()` (whose raise propagates with
`_returned_on` already set); compute and return the fine. -/
def return_item (l : Loan) (item : LibraryItem) (return_date : Date)
    (daily_rate : ℚ) : ReturnItemResult :=
  if !l.is_active then
    { outcome := .error "Loan is already closed", loan := l, item := item }
  else
    let l2 := { l with returned_on := some return_date }
    match item.return_copy with
    | .error e => { outcome := .error e, loan := l2, item := item }
    | .ok item2 =>
        { outcome := .ok (l2.calculate_fine return_date daily_rate),
          loan := l2, item := item2 }

/-- The per-hold blocking test inside `Loan.renew`: same item, different
borrower, unexpired, not cancelled (the fulfilled flag is not tested). -/
def blocksRenewal (user : User) (item : LibraryItem) (today : Date)
    (h : Hold) : Bool :=
  h.item_id == item.item_id && h.user_id != user.user_id &&
  decide (h.expires_on ≥ today) && !h.cancelled

/-- `Loan.renew`: returns the new due date (and the updated loan) on
success, or `none` with the loan untouched on any of the rejections, in
source order: inactive loan, different borrower, renewal cap, overdue
without `allow_overdue`, conflicting hold.  On success the due date is
recomputed by the role-based project-1 policy and the renewal count
increments. -/
def renew (l : Loan) (user : User) (item : LibraryItem) (today : Date)
    (holds : List Hold) (max_renewals : Int) (allow_overdue : Bool) :
    Option Date × Loan :=
  if !l.is_active then (none, l)
  else if l.user_id != user.user_id then (none, l)
  else if l.renewals ≥ max_renewals then (none, l)
  else if !allow_overdue && decide (today > l.due) then (none, l)
  else if holds.any (blocksRenewal user item today) then (none, l)
  else
    let newDue := project_1_functions.calculate_due_date today user.role
    (some newDue, { l with due := newDue, renewals := l.renewals + 1 })

end Loan

/-- State of the `Catalog` (catalog.py): items keyed by id. -/
structure Catalog where
  name : String
  items : List (String × LibraryItem)
deriving DecidableEq, Repr

/-- State of the `LibrarySystem` coordinator (library_system.py). -/
structure LibrarySystem where
  catalog : Catalog
  users : List (String × User)
  loans : List (String × Loan)
  holds : List (String × Hold)
deriving DecidableEq, Repr

namespace LibrarySystem

/-- `LibrarySystem.add_user`: duplicate user id raises a conflict error. -/
def add_user (s : LibrarySystem) (user : User) : Except String LibrarySystem :=
  if (s.users.lookup user.user_id).isSome then
    .error "User already exists"
  else
    .ok { s with users := dictInsert user.user_id user s.users }

/-- Outcome of `LibrarySystem.checkout_item` together with the final
system state (partial mutations survive a raise, as in the source). -/
structure CheckoutResult where
  outcome : Except String Loan
  sys : LibrarySystem
deriving Repr

/-- `LibrarySystem.checkout_item`, in source order: resolve the user and
item (not-found raises), fail if unavailable, compute the due date via
the item's polymorphic policy, decrement the item (a later raise leaves
the decrement in place), construct the Loan (its validation can raise),
store it under `loan_id` — overwriting any loan already there, with no
duplicate-id check — and register the loan with the user. -/
def checkout_item (s : LibrarySystem) (loan_id user_id item_id : String)
    (checkout_date : Date) : CheckoutResult :=
  match s.users.lookup user_id with
  | none => { outcome := .error "Unknown user", sys := s }
  | some user =>
    match s.catalog.items.lookup item_id with
    | none => { outcome := .error "Unknown item", sys := s }
    | some item =>
      if !item.is_available then
        { outcome := .error "Item is not available", sys := s }
      else
        let due := item.calculate_due_date checkout_date user.role
        match item.checkout_copy with
        | .error e => { outcome := .error e, sys := s }
        | .ok item2 =>
          let s1 := { s with catalog :=
            { s.catalog with items := dictInsert item_id item2 s.catalog.items } }
          match Loan.init loan_id user.user_id item.item_id due none 0 with
          | .error e => { outcome := .error e, sys := s1 }
          | .ok loan =>
            let s2 := { s1 with loans := dictInsert loan_id loan s1.loans }
            let user2 := user.add_loan loan_id
            let s3 := { s2 with users := dictInsert user_id user2 s2.users }
            { outcome := .ok loan, sys := s3 }

/-- `LibrarySystem.place_hold`: duplicate hold id raises a conflict
error; otherwise a fresh active hold is constructed and stored. -/
def place_hold (s : LibrarySystem) (hold_id user_id item_id : String)
    (placed_on expires_on : Date) : Except String (Hold × LibrarySystem) :=
  if (s.holds.lookup hold_id).isSome then
    .error "Hold already exists"
  else
    match Hold.init hold_id user_id item_id placed_on expires_on false with
    | .error e => .error e
    | .ok h =>
        .ok (h, { s with holds := dictInsert hold_id h s.holds })

end LibrarySystem

/-!
Claim theorems.  Each claim of the specification gets one theorem below
(with a closed witness instance where the theorem carries hypotheses,
and a closed counterexample where the source refutes the claim as
stated).
-/

/-- On every non-EBook variant, `checkout_copy` is the guarded decrement
of libraryItem.py (the EBook override is the only one that bypasses it). -/
theorem LibraryItem.checkout_copy_physical (it : LibraryItem)
    (hk : it.kind ≠ .ebook) :
    it.checkout_copy =
      if it.available_copies ≤ 0 then .error "Item has no available copies"
      else .ok { it with available_copies := it.available_copies - 1 } := by
  cases h : it.kind
  case ebook => exact absurd h hk
  all_goals simp only [LibraryItem.checkout_copy, h]

/-- C5: for every physical (non-EBook) item satisfying
`0 ≤ available_copies ≤ total_copies`, `checkout_copy` fails exactly
when no copy is available and otherwise decrements by one, `return_copy`
fails exactly when every copy is already in and otherwise increments by
one, both preserving `0 ≤ available_copies ≤ total_copies`; and the
EBook variant's `checkout_copy` never changes `available_copies`. -/
theorem claim_C5 (it : LibraryItem)
    (h0 : 0 ≤ it.available_copies)
    (h1 : it.available_copies ≤ it.total_copies) :
    (it.kind ≠ .ebook →
      ((it.available_copies = 0 → it.checkout_copy.isOk = false) ∧
       (0 < it.available_copies →
         it.checkout_copy =
           .ok { it with available_copies := it.available_copies - 1 } ∧
         0 ≤ it.available_copies - 1 ∧
         it.available_copies - 1 ≤ it.total_copies))) ∧
    ((it.available_copies = it.total_copies → it.return_copy.isOk = false) ∧
     (it.available_copies < it.total_copies →
       it.return_copy =
         .ok { it with available_copies := it.available_copies + 1 } ∧
       0 ≤ it.available_copies + 1 ∧
       it.available_copies + 1 ≤ it.total_copies)) ∧
    (it.kind = .ebook → it.checkout_copy = .ok it) := by
  refine ⟨?_, ⟨?_, ?_⟩, ?_⟩
  · intro hk
    rw [LibraryItem.checkout_copy_physical it hk]
    constructor
    · intro h
      rw [if_pos (by omega)]
      rfl
    · intro h
      rw [if_neg (by omega)]
      exact ⟨rfl, by omega, by omega⟩
  · intro h
    unfold LibraryItem.return_copy
    rw [if_pos (by omega)]
    rfl
  · intro h
    unfold LibraryItem.return_copy
    rw [if_neg (by omega)]
    exact ⟨rfl, by omega, by omega⟩
  · intro hk
    simp [LibraryItem.checkout_copy, hk]

/-- Witness for C5 at a concrete Book with one of two copies out, and a
concrete EBook. -/
theorem claim_C5_witness :
    (LibraryItem.checkout_copy ⟨"I1", "T", .book, 1, 2⟩ =
        .ok ⟨"I1", "T", .book, 0, 2⟩) ∧
    (LibraryItem.return_copy ⟨"I1", "T", .book, 1, 2⟩ =
        .ok ⟨"I1", "T", .book, 2, 2⟩) ∧
    (LibraryItem.checkout_copy ⟨"I2", "T", .ebook, 3, 3⟩ =
        .ok ⟨"I2", "T", .ebook, 3, 3⟩) := by
  have h := claim_C5 ⟨"I1", "T", .book, 1, 2⟩ (by decide) (by decide)
  have he := claim_C5 ⟨"I2", "T", .ebook, 3, 3⟩ (by decide) (by decide)
  refine ⟨?_, ?_, ?_⟩
  · exact ((h.1 (by decide)).2 (by decide)).1
  · exact (h.2.1.2 (by decide)).1
  · exact he.2.2 rfl

/-- C6: for every checkout date and every valid role, the polymorphic
due-date policy is exactly: generic/Book +14 days for Student/Public and
+28 otherwise; Journal +7 for Student/Public and +14 otherwise; DVD +7
regardless of role; EBook the checkout date itself. -/
theorem claim_C6 (it : LibraryItem) (checkout : Date) (role : String)
    (hrole : project_1_functions.validate_user_role role = true) :
    it.calculate_due_date checkout role =
      match it.kind with
      | .generic | .book =>
          checkout + (if role = "Student" ∨ role = "Public" then 14 else 28)
      | .journal =>
          checkout + (if role = "Student" ∨ role = "Public" then 7 else 14)
      | .dvd => checkout + 7
      | .ebook => checkout := by
  have h5 : role = "Student" ∨ role = "Faculty" ∨ role = "Staff" ∨
      role = "Admin" ∨ role = "Public" := by
    have h := hrole
    simp only [project_1_functions.validate_user_role, Bool.or_eq_true,
      beq_iff_eq] at h
    tauto
  cases hk : it.kind <;>
    rcases h5 with h | h | h | h | h <;>
      subst h <;>
        simp [LibraryItem.calculate_due_date,
          project_1_functions.calculate_due_date, hk]

/-- Witness for C6: a Journal checked out by a Student on day 0 is due
on day 7, and by Faculty on day 14; a DVD for Faculty on day 7; an
EBook for a Student on day 0. -/
theorem claim_C6_witness :
    LibraryItem.calculate_due_date ⟨"J", "T", .journal, 1, 1⟩ 0 "Student" = 7 ∧
    LibraryItem.calculate_due_date ⟨"J", "T", .journal, 1, 1⟩ 0 "Faculty" = 14 ∧
    LibraryItem.calculate_due_date ⟨"D", "T", .dvd, 1, 1⟩ 0 "Faculty" = 7 ∧
    LibraryItem.calculate_due_date ⟨"E", "T", .ebook, 1, 1⟩ 0 "Student" = 0 := by
  refine ⟨?_, ?_, ?_, ?_⟩
  · have h := claim_C6 ⟨"J", "T", .journal, 1, 1⟩ 0 "Student" (by decide)
    simpa using h
  · have h := claim_C6 ⟨"J", "T", .journal, 1, 1⟩ 0 "Faculty" (by decide)
    simpa using h
  · have h := claim_C6 ⟨"D", "T", .dvd, 1, 1⟩ 0 "Faculty" (by decide)
    simpa using h
  · have h := claim_C6 ⟨"E", "T", .ebook, 1, 1⟩ 0 "Student" (by decide)
    simpa using h

/-- C7: the loan fine is 0 when the return date is on or before the due
date and otherwise the number of days late times the daily rate, rounded
to two decimals; at due 2025-01-01 (day 0), return 2025-01-20 (day 19)
and rate 0.25, the fine is exactly 4.75. -/
theorem claim_C7 (l : Loan) (return_date : Date) (daily_rate : ℚ) :
    (l.calculate_fine return_date daily_rate =
      if return_date ≤ l.due then 0
      else project_1_functions.round2 ((return_date - l.due) * daily_rate)) ∧
    Loan.calculate_fine ⟨"L001", "U001", "B001", 0, none, 0⟩ 19 (1/4) =
      19/4 := by
  constructor
  · rfl
  · simp only [Loan.calculate_fine, project_1_functions.compute_overdue_fine,
      project_1_functions.round2, project_1_functions.roundHalfEven]
    norm_num

/-- C8: whenever `Loan.renew` succeeds, the new due date is today plus
the role-based loan period (14 days for Student/Public, 28 otherwise) —
independently of the item's own polymorphic policy and hence of the item
kind — and the renewal count increments by exactly one. -/
theorem claim_C8 (l : Loan) (user : User) (item : LibraryItem)
    (today : Date) (holds : List Hold) (max_renewals : Int)
    (allow_overdue : Bool) (d : Date) (l2 : Loan)
    (h : l.renew user item today holds max_renewals allow_overdue =
      (some d, l2)) :
    d = today +
      (if user.role = "Student" ∨ user.role = "Public" then 14 else 28) ∧
    l2.due = d ∧ l2.renewals = l.renewals + 1 := by
  unfold Loan.renew at h
  split at h
  · simp at h
  split at h
  · simp at h
  split at h
  · simp at h
  split at h
  · simp at h
  split at h
  · simp at h
  simp only [Prod.mk.injEq, Option.some.injEq] at h
  obtain ⟨hd, hl⟩ := h
  subst hd
  subst hl
  refine ⟨?_, rfl, rfl⟩
  simp only [project_1_functions.calculate_due_date, Bool.or_eq_true,
    beq_iff_eq]

/-- Witness for C8: a Student's loan with no competing holds renews on
day 5 to a new due date of day 19 with one renewal recorded. -/
theorem claim_C8_witness :
    (19 : Date) = 5 +
      (if ("Student" : String) = "Student" ∨ ("Student" : String) = "Public"
       then 14 else 28) ∧
    Loan.due ⟨"L1", "U1", "I1", 19, none, 1⟩ = 19 ∧
    Loan.renewals ⟨"L1", "U1", "I1", 19, none, 1⟩ =
      Loan.renewals ⟨"L1", "U1", "I1", 10, none, 0⟩ + 1 :=
  claim_C8 ⟨"L1", "U1", "I1", 10, none, 0⟩ ⟨"U1", "N", "Student", [], 0⟩
    ⟨"I1", "T", .book, 1, 1⟩ 5 [] 2 false 19 ⟨"L1", "U1", "I1", 19, none, 1⟩
    (by decide)

/-- C9: renewing a loan whose return date is set always yields the no-op
outcome `none` and returns the loan completely unchanged, so repeated
calls behave identically. -/
theorem claim_C9 (l : Loan) (user : User) (item : LibraryItem)
    (today : Date) (holds : List Hold) (max_renewals : Int)
    (allow_overdue : Bool) (d : Date) (h : l.returned_on = some d) :
    l.renew user item today holds max_renewals allow_overdue = (none, l) := by
  unfold Loan.renew
  rw [if_pos]
  simp [Loan.is_active, h]

/-- Witness for C9: a loan returned on day 12 is rejected for renewal
with no mutation. -/
theorem claim_C9_witness :
    Loan.renew ⟨"L1", "U1", "I1", 10, some 12, 0⟩ ⟨"U1", "N", "Student", [], 0⟩
      ⟨"I1", "T", .book, 1, 1⟩ 13 [] 2 false =
      (none, ⟨"L1", "U1", "I1", 10, some 12, 0⟩) :=
  claim_C9 ⟨"L1", "U1", "I1", 10, some 12, 0⟩ ⟨"U1", "N", "Student", [], 0⟩
    ⟨"I1", "T", .book, 1, 1⟩ 13 [] 2 false 12 rfl

/-- C10: the constructor fixes `total_copies` to the single
`available_copies` argument (there is no separate total parameter),
neither `checkout_copy` nor `return_copy` ever changes `total_copies`,
and consequently `available_copies ≤ total_copies` is preserved, so the
available count can never rise above the count fixed at creation. -/
theorem claim_C10 :
    (∀ (id title : String) (kind : ItemKind) (avail : Int)
        (it : LibraryItem),
      LibraryItem.init id title kind avail = .ok it →
      it.total_copies = avail ∧ it.available_copies = avail) ∧
    (∀ it it2 : LibraryItem, it.checkout_copy = .ok it2 →
      it2.total_copies = it.total_copies) ∧
    (∀ it it2 : LibraryItem, it.return_copy = .ok it2 →
      it2.total_copies = it.total_copies) ∧
    (∀ it it2 : LibraryItem, it.available_copies ≤ it.total_copies →
      (it.checkout_copy = .ok it2 ∨ it.return_copy = .ok it2) →
      it2.available_copies ≤ it2.total_copies) := by
  have hco : ∀ it it2 : LibraryItem, it.checkout_copy = .ok it2 →
      it2.total_copies = it.total_copies ∧
      (it2.available_copies = it.available_copies ∨
        it2.available_copies = it.available_copies - 1) := by
    intro it it2 h
    by_cases hk : it.kind = .ebook
    · simp only [LibraryItem.checkout_copy, hk] at h
      cases h
      exact ⟨rfl, Or.inl rfl⟩
    · rw [LibraryItem.checkout_copy_physical it hk] at h
      split at h
      · cases h
      · cases h
        exact ⟨rfl, Or.inr rfl⟩
  have hrc : ∀ it it2 : LibraryItem, it.return_copy = .ok it2 →
      it2.total_copies = it.total_copies ∧
      it2.available_copies = it.available_copies + 1 ∧
      it.available_copies < it.total_copies := by
    intro it it2 h
    unfold LibraryItem.return_copy at h
    split at h
    · cases h
    · cases h
      exact ⟨rfl, rfl, by omega⟩
  refine ⟨?_, ?_, ?_, ?_⟩
  · intro id title kind avail it h
    unfold LibraryItem.init at h
    split at h
    · cases h
    split at h
    · cases h
    split at h
    · cases h
    cases h
    exact ⟨rfl, rfl⟩
  · exact fun it it2 h => (hco it it2 h).1
  · exact fun it it2 h => (hrc it it2 h).1
  · intro it it2 hle h
    rcases h with h | h
    · obtain ⟨ht, ha⟩ := hco it it2 h
      omega
    · obtain ⟨ht, ha, hlt⟩ := hrc it it2 h
      omega

/-- Witness for C10: constructing a Book with 2 copies fixes both counts
at 2, and a checkout from it keeps the total at 2 with availability
still within bounds. -/
theorem claim_C10_witness :
    (LibraryItem.total_copies ⟨"B1", "T", .book, 2, 2⟩ = 2 ∧
     LibraryItem.available_copies ⟨"B1", "T", .book, 2, 2⟩ = 2) ∧
    LibraryItem.total_copies ⟨"B1", "T", .book, 1, 2⟩ =
      LibraryItem.total_copies ⟨"B1", "T", .book, 2, 2⟩ ∧
    LibraryItem.available_copies ⟨"B1", "T", .book, 1, 2⟩ ≤
      LibraryItem.total_copies ⟨"B1", "T", .book, 1, 2⟩ := by
  refine ⟨?_, ?_, ?_⟩
  · exact claim_C10.1 "B1" "T" .book 2 ⟨"B1", "T", .book, 2, 2⟩ rfl
  · exact claim_C10.2.1 ⟨"B1", "T", .book, 2, 2⟩ ⟨"B1", "T", .book, 1, 2⟩ rfl
  · exact claim_C10.2.2.2 ⟨"B1", "T", .book, 2, 2⟩ ⟨"B1", "T", .book, 1, 2⟩
      (by decide) (Or.inl rfl)

/-- C4 counterexample: the hold H1 (placed day 0, expiring day 4, never
fulfilled) is cancelled, yet on day 10 `is_expired` reports true, not
false as the claim requires. -/
theorem claim_C4_counterexample :
    Hold.cancel ⟨"H1", "U2", "I1", 0, 4, false, false, false⟩ =
      .ok ⟨"H1", "U2", "I1", 0, 4, false, false, true⟩ ∧
    Hold.is_expired ⟨"H1", "U2", "I1", 0, 4, false, false, true⟩ 10 = true :=
  ⟨rfl, by decide⟩

/-- C4 amended: `is_expired` ignores cancellation entirely; since
`cancel` only succeeds on unfulfilled holds, a cancelled hold is
reported expired exactly when today is past its expiry date (so it is
not the case that a cancelled hold is never reported expired). -/
theorem claim_C4_amended (h h2 : Hold) (today : Date)
    (hc : h.cancel = .ok h2) :
    h2.cancelled = true ∧
    h2.is_expired today = decide (today > h2.expires_on) := by
  unfold Hold.cancel at hc
  split at hc
  · cases hc
  case isFalse hf =>
    cases hc
    refine ⟨rfl, ?_⟩
    unfold Hold.is_expired
    simp only [Bool.not_eq_true] at hf
    simp [hf]

/-- Witness for C4 amended: the cancelled hold from the counterexample,
examined on day 10 (past its day-4 expiry). -/
theorem claim_C4_amended_witness :
    Hold.cancelled ⟨"H1", "U2", "I1", 0, 4, false, false, true⟩ = true ∧
    Hold.is_expired ⟨"H1", "U2", "I1", 0, 4, false, false, true⟩ 10 =
      decide ((10 : Date) > (4 : Date)) :=
  claim_C4_amended ⟨"H1", "U2", "I1", 0, 4, false, false, false⟩
    ⟨"H1", "U2", "I1", 0, 4, false, false, true⟩ 10 rfl

/-- C2 counterexample: the loan is active, the borrower renews, the
renewal count is below the maximum, the loan is not overdue, and the
only hold on the item — by another user, not cancelled, unexpired — is
fulfilled and therefore *not* active, so the claim requires the renewal
to succeed; the source still denies it (the fulfilled flag is never
consulted). -/
theorem claim_C2_counterexample :
    Loan.is_active ⟨"L1", "U1", "I1", 10, none, 0⟩ = true ∧
    Hold.is_active ⟨"H1", "U2", "I1", 0, 20, false, true, false⟩ 5 = false ∧
    Hold.fulfilled ⟨"H1", "U2", "I1", 0, 20, false, true, false⟩ = true ∧
    Hold.cancelled ⟨"H1", "U2", "I1", 0, 20, false, true, false⟩ = false ∧
    (Loan.renew ⟨"L1", "U1", "I1", 10, none, 0⟩ ⟨"U1", "N", "Student", [], 0⟩
      ⟨"I1", "T", .book, 1, 1⟩ 5
      [⟨"H1", "U2", "I1", 0, 20, false, true, false⟩] 2 false).1 = none := by
  decide

/-- C2 amended: under the stated preconditions, `Loan.renew` succeeds if
and only if no *other* user holds a non-cancelled hold on the same item
with expiry on or after today — whether or not that hold is fulfilled
(the fulfilled flag, and hence hold activity, is not consulted) — and in
the blocked case renew returns the no-op outcome with the loan
unchanged. -/
theorem claim_C2_amended (l : Loan) (user : User) (item : LibraryItem)
    (today : Date) (holds : List Hold) (max_renewals : Int)
    (allow_overdue : Bool)
    (hact : l.is_active = true) (hbor : l.user_id = user.user_id)
    (hcnt : l.renewals < max_renewals)
    (hdue : allow_overdue = true ∨ today ≤ l.due) :
    ((l.renew user item today holds max_renewals allow_overdue).1.isSome =
        true ↔
      ¬ ∃ h ∈ holds, h.item_id = item.item_id ∧ h.user_id ≠ user.user_id ∧
        today ≤ h.expires_on ∧ h.cancelled = false) ∧
    ((∃ h ∈ holds, h.item_id = item.item_id ∧ h.user_id ≠ user.user_id ∧
        today ≤ h.expires_on ∧ h.cancelled = false) →
      l.renew user item today holds max_renewals allow_overdue =
        (none, l)) := by
  have hov : (!allow_overdue && decide (today > l.due)) = false := by
    rcases hdue with h | h
    · simp [h]
    · simp [h]
  have hexists : holds.any (Loan.blocksRenewal user item today) = true ↔
      ∃ h ∈ holds, h.item_id = item.item_id ∧ h.user_id ≠ user.user_id ∧
        today ≤ h.expires_on ∧ h.cancelled = false := by
    simp only [List.any_eq_true, Loan.blocksRenewal, Bool.and_eq_true,
      beq_iff_eq, bne_iff_ne, decide_eq_true_eq, ge_iff_le,
      Bool.not_eq_true']
    tauto
  have hren : l.renew user item today holds max_renewals allow_overdue =
      if holds.any (Loan.blocksRenewal user item today) then (none, l)
      else
        (some (project_1_functions.calculate_due_date today user.role),
         { l with due := project_1_functions.calculate_due_date today user.role,
                  renewals := l.renewals + 1 }) := by
    unfold Loan.renew
    rw [hact]
    simp only [Bool.not_true, Bool.false_eq_true, if_false, hbor,
      bne_self_eq_false, if_neg (not_le.mpr hcnt), hov]
  constructor
  · rw [hren]
    by_cases hb : holds.any (Loan.blocksRenewal user item today) = true
    · rw [if_pos hb]
      simp [hexists.mp hb]
    · rw [if_neg hb]
      simp only [Option.isSome_some, true_iff]
      rw [← hexists]
      exact fun hc => hb hc
  · intro hex
    rw [hren, if_pos (hexists.mpr hex)]

/-- Witness for C2 amended: with no holds at all, the same loan, user
and item as the counterexample renew successfully. -/
theorem claim_C2_amended_witness :
    (Loan.renew ⟨"L1", "U1", "I1", 10, none, 0⟩ ⟨"U1", "N", "Student", [], 0⟩
      ⟨"I1", "T", .book, 1, 1⟩ 5 [] 2 false).1.isSome = true :=
  (claim_C2_amended ⟨"L1", "U1", "I1", 10, none, 0⟩
      ⟨"U1", "N", "Student", [], 0⟩ ⟨"I1", "T", .book, 1, 1⟩ 5 [] 2 false
      rfl rfl (by decide) (Or.inr (by decide))).1.mpr (by simp)

/-- C1 counterexample: two raising operations that do leave a partial
mutation behind.  First, returning active loan L1 against an item whose
copies are all in: `return_copy` raises the over-return state error, yet
the loan's `returned_on` has already been set to the return date.
Second, `checkout_item` with a blank loan id on an available item: the
Loan constructor raises its validation error, yet the item's
`available_copies` has already been decremented from 1 to 0. -/
theorem claim_C1_counterexample :
    ((Loan.return_item ⟨"L1", "U1", "I1", 10, none, 0⟩
        ⟨"I1", "T", .book, 1, 1⟩ 12 (1/4)).outcome.isOk = false ∧
     (Loan.return_item ⟨"L1", "U1", "I1", 10, none, 0⟩
        ⟨"I1", "T", .book, 1, 1⟩ 12 (1/4)).loan.returned_on = some 12) ∧
    ((LibrarySystem.checkout_item
        ⟨⟨"Main", [("I1", ⟨"I1", "T", .book, 1, 1⟩)]⟩,
          [("U1", ⟨"U1", "N", "Student", [], 0⟩)], [], []⟩
        "" "U1" "I1" 0).outcome.isOk = false ∧
     ((LibrarySystem.checkout_item
        ⟨⟨"Main", [("I1", ⟨"I1", "T", .book, 1, 1⟩)]⟩,
          [("U1", ⟨"U1", "N", "Student", [], 0⟩)], [], []⟩
        "" "U1" "I1" 0).sys.catalog.items.lookup "I1").map
          LibraryItem.available_copies = some 0) := by
  decide

/-- C1 amended: failures in precondition checks perform no partial
mutation — a `return_item` on a closed loan changes nothing, any raising
`return_item` leaves the item untouched, and a `checkout_item` failing
on user lookup, item lookup or availability leaves the whole system
untouched — but atomicity stops at the first mutation: when
`return_copy` raises the over-return error inside `return_item` the
loan's `returned_on` has already been set to the return date, and a
`checkout_item` whose Loan construction fails on a blank loan id has
already decremented the item stored in the catalog. -/
theorem claim_C1_amended :
    (∀ (l : Loan) (item : LibraryItem) (rd : Date) (rate : ℚ),
      l.is_active = false →
      l.return_item item rd rate =
        ⟨.error "Loan is already closed", l, item⟩) ∧
    (∀ (l : Loan) (item : LibraryItem) (rd : Date) (rate : ℚ),
      (l.return_item item rd rate).outcome.isOk = false →
      (l.return_item item rd rate).item = item) ∧
    (∀ (l : Loan) (item : LibraryItem) (rd : Date) (rate : ℚ),
      l.is_active = true → item.total_copies ≤ item.available_copies →
      (l.return_item item rd rate).outcome.isOk = false ∧
      (l.return_item item rd rate).loan.returned_on = some rd) ∧
    (∀ (s : LibrarySystem) (lid uid iid : String) (cd : Date),
      s.users.lookup uid = none →
      s.checkout_item lid uid iid cd = ⟨.error "Unknown user", s⟩) ∧
    (∀ (s : LibrarySystem) (lid uid iid : String) (cd : Date) (u : User),
      s.users.lookup uid = some u → s.catalog.items.lookup iid = none →
      s.checkout_item lid uid iid cd = ⟨.error "Unknown item", s⟩) ∧
    (∀ (s : LibrarySystem) (lid uid iid : String) (cd : Date) (u : User)
        (item : LibraryItem),
      s.users.lookup uid = some u → s.catalog.items.lookup iid = some item →
      item.is_available = false →
      s.checkout_item lid uid iid cd = ⟨.error "Item is not available", s⟩) ∧
    (∀ (s : LibrarySystem) (lid uid iid : String) (cd : Date) (u : User)
        (item item2 : LibraryItem),
      s.users.lookup uid = some u → s.catalog.items.lookup iid = some item →
      item.is_available = true → pyStrip lid = "" →
      item.checkout_copy = .ok item2 →
      (s.checkout_item lid uid iid cd).outcome.isOk = false ∧
      (s.checkout_item lid uid iid cd).sys =
        { s with catalog :=
            { s.catalog with
                items := dictInsert iid item2 s.catalog.items } }) := by
  refine ⟨?_, ?_, ?_, ?_, ?_, ?_, ?_⟩
  · intro l item rd rate h
    simp [Loan.return_item, h]
  · intro l item rd rate h
    unfold Loan.return_item at h ⊢
    by_cases ha : l.is_active = true
    · simp only [ha, Bool.not_true] at h ⊢
      cases hrc : item.return_copy with
      | error e => simp [hrc]
      | ok item2 => simp [hrc, Except.isOk, Except.toBool] at h
    · simp only [Bool.not_eq_true] at ha
      simp [ha]
  · intro l item rd rate ha hfull
    have hrc : item.return_copy = .error "All copies are already returned" := by
      unfold LibraryItem.return_copy
      rw [if_pos (by omega)]
    simp [Loan.return_item, ha, hrc, Except.isOk, Except.toBool]
  · intro s lid uid iid cd h
    simp [LibrarySystem.checkout_item, h]
  · intro s lid uid iid cd u h1 h2
    simp [LibrarySystem.checkout_item, h1, h2]
  · intro s lid uid iid cd u item h1 h2 h3
    simp [LibrarySystem.checkout_item, h1, h2, h3]
  · intro s lid uid iid cd u item item2 h1 h2 h3 hlid hco
    have hinit : Loan.init lid u.user_id item.item_id
        (item.calculate_due_date cd u.role) none 0 =
        .error "Loan ID cannot be empty" := by
      unfold Loan.init
      rw [if_pos (by simp [hlid])]
    simp [LibrarySystem.checkout_item, h1, h2, h3, hco, hinit, Except.isOk, Except.toBool]

/-- Witness for C1 amended: the over-return conjunct at a concrete
active loan and a fully returned two-copy book. -/
theorem claim_C1_amended_witness :
    (Loan.return_item ⟨"L2", "U1", "I2", 10, none, 0⟩
       ⟨"I2", "T", .book, 2, 2⟩ 12 (1/4)).outcome.isOk = false ∧
    (Loan.return_item ⟨"L2", "U1", "I2", 10, none, 0⟩
       ⟨"I2", "T", .book, 2, 2⟩ 12 (1/4)).loan.returned_on = some 12 :=
  claim_C1_amended.2.2.1 ⟨"L2", "U1", "I2", 10, none, 0⟩
    ⟨"I2", "T", .book, 2, 2⟩ 12 (1/4) rfl (by decide)

/-- C3 counterexample: the system already stores a loan under id L1
(due day 99, one renewal); `checkout_item` with the same loan id on an
available two-copy book succeeds instead of failing with a conflict
error, and the previously stored loan under L1 is replaced. -/
theorem claim_C3_counterexample :
    (LibrarySystem.checkout_item
        ⟨⟨"Main", [("I1", ⟨"I1", "T", .book, 2, 2⟩)]⟩,
          [("U1", ⟨"U1", "N", "Student", ["L1"], 0⟩)],
          [("L1", ⟨"L1", "U1", "I1", 99, none, 1⟩)], []⟩
        "L1" "U1" "I1" 0).outcome.isOk = true ∧
    (LibrarySystem.checkout_item
        ⟨⟨"Main", [("I1", ⟨"I1", "T", .book, 2, 2⟩)]⟩,
          [("U1", ⟨"U1", "N", "Student", ["L1"], 0⟩)],
          [("L1", ⟨"L1", "U1", "I1", 99, none, 1⟩)], []⟩
        "L1" "U1" "I1" 0).sys.loans.lookup "L1" ≠
      some ⟨"L1", "U1", "I1", 99, none, 1⟩ := by
  decide

/-- C3 amended: `checkout_item` performs no duplicate-id check on the
loan catalog: whenever the user and item resolve, the item is available
and the Loan constructor's validations pass, the checkout succeeds and
stores the new loan under `loan_id`, silently overwriting any loan
already stored there; duplicate-id inserts do fail with a conflict error
for Users (`add_user`) and Holds (`place_hold`). -/
theorem claim_C3_amended :
    (∀ (s : LibrarySystem) (lid uid iid : String) (cd : Date) (u : User)
        (item item2 : LibraryItem),
      s.users.lookup uid = some u → s.catalog.items.lookup iid = some item →
      item.is_available = true → item.checkout_copy = .ok item2 →
      pyStrip lid ≠ "" → pyStrip u.user_id ≠ "" → pyStrip item.item_id ≠ "" →
      ∃ loan : Loan,
        (s.checkout_item lid uid iid cd).outcome = .ok loan ∧
        (s.checkout_item lid uid iid cd).sys.loans =
          dictInsert lid loan s.loans) ∧
    (∀ (s : LibrarySystem) (u : User),
      (s.users.lookup u.user_id).isSome = true →
      (s.add_user u).isOk = false) ∧
    (∀ (s : LibrarySystem) (hid uid iid : String) (p e : Date),
      (s.holds.lookup hid).isSome = true →
      (s.place_hold hid uid iid p e).isOk = false) := by
  refine ⟨?_, ?_, ?_⟩
  · intro s lid uid iid cd u item item2 h1 h2 h3 hco hlid huid hiid
    have hinit : Loan.init lid u.user_id item.item_id
        (item.calculate_due_date cd u.role) none 0 =
        .ok { loan_id := pyStrip lid, user_id := pyStrip u.user_id,
              item_id := pyStrip item.item_id,
              due := item.calculate_due_date cd u.role,
              returned_on := none, renewals := 0 } := by
      unfold Loan.init
      rw [if_neg (by simp [hlid]), if_neg (by simp [huid]),
        if_neg (by simp [hiid]), if_neg (by omega)]
    refine ⟨{ loan_id := pyStrip lid, user_id := pyStrip u.user_id,
              item_id := pyStrip item.item_id,
              due := item.calculate_due_date cd u.role,
              returned_on := none, renewals := 0 }, ?_, ?_⟩ <;>
      simp [LibrarySystem.checkout_item, h1, h2, h3, hco, hinit]
  · intro s u h
    simp [LibrarySystem.add_user, h, Except.isOk, Except.toBool]
  · intro s hid uid iid p e h
    simp [LibrarySystem.place_hold, h, Except.isOk, Except.toBool]

/-- Witness for C3 amended: checking out with fresh loan id L2 while L1
is stored succeeds and writes the new loan into the loan catalog. -/
theorem claim_C3_amended_witness :
    ∃ loan : Loan,
      (LibrarySystem.checkout_item
          ⟨⟨"Main", [("I1", ⟨"I1", "T", .book, 2, 2⟩)]⟩,
            [("U1", ⟨"U1", "N", "Student", ["L1"], 0⟩)],
            [("L1", ⟨"L1", "U1", "I1", 99, none, 1⟩)], []⟩
          "L2" "U1" "I1" 0).outcome = .ok loan ∧
      (LibrarySystem.checkout_item
          ⟨⟨"Main", [("I1", ⟨"I1", "T", .book, 2, 2⟩)]⟩,
            [("U1", ⟨"U1", "N", "Student", ["L1"], 0⟩)],
            [("L1", ⟨"L1", "U1", "I1", 99, none, 1⟩)], []⟩
          "L2" "U1" "I1" 0).sys.loans =
        dictInsert "L2" loan [("L1", ⟨"L1", "U1", "I1", 99, none, 1⟩)] :=
  claim_C3_amended.1
    ⟨⟨"Main", [("I1", ⟨"I1", "T", .book, 2, 2⟩)]⟩,
      [("U1", ⟨"U1", "N", "Student", ["L1"], 0⟩)],
      [("L1", ⟨"L1", "U1", "I1", 99, none, 1⟩)], []⟩
    "L2" "U1" "I1" 0 ⟨"U1", "N", "Student", ["L1"], 0⟩
    ⟨"I1", "T", .book, 2, 2⟩ ⟨"I1", "T", .book, 1, 2⟩
    rfl rfl rfl rfl (by decide) (by decide) (by decide)
